import Mathlib

/-!
Shallow embedding of the webhook reconciliation backend
(construye-tu-futuro-backend).

The repository contains several server variants.  The claims concern:
  * `src/server.js` (the `/stripe-webhook` endpoint with an idempotency
    ledger and a `users` table that folds subscription fields onto the
    user row) — embedded in namespace `ServerJs`;
  * `src/unnamed/part_000` (the `/webhook` endpoint with separate
    `users` / `subscriptions` tables, `isAccessActiveRow` and the
    `auth/check` / `auth/login` handlers) — namespace `Part000`;
  * `src/unnamed/part_001` (same schema and helpers as part_000, but
    with an explicit `endpointSecret` guard and with the transactional
    email sends placed inside only the outer try/catch) — namespace
    `Part001`.

Timestamps are modelled as natural numbers (milliseconds since the
epoch, the unit of JavaScript `Date.now()` / `getTime()`).  JavaScript
string truthiness (`undefined`/`null`/`""` are falsy) is modelled over
`Option String` by `strTruthy`.  Fallible external sends are modelled
by an `emailOk` flag in the environment: `false` means the provider
throws on `send`.
-/

/-- JavaScript `toLowerCase()` (all source strings are ASCII), as a
character-wise map so the kernel can evaluate it. -/
def jsToLower (s : String) : String := ⟨s.data.map Char.toLower⟩

/-- JavaScript `trim()`: strip whitespace from both ends. -/
def jsTrim (s : String) : String :=
  ⟨(((s.data.dropWhile Char.isWhitespace).reverse).dropWhile
      Char.isWhitespace).reverse⟩

/-- JavaScript truthiness of a possibly-absent string:
`undefined`, `null` and `""` are falsy. -/
def strTruthy : Option String → Bool
  | none => false
  | some s => !s.isEmpty

/-- JavaScript `a || b` on possibly-absent strings. -/
def jsOr (a b : Option String) : Option String :=
  if strTruthy a then a else b

/-- JavaScript `a || null` on a possibly-absent string. -/
def jsOrNull (a : Option String) : Option String :=
  if strTruthy a then a else none

/-- JavaScript `a || d` where `d` is a string default. -/
def jsOrD (a : Option String) (d : String) : String :=
  match a with
  | none => d
  | some s => if s.isEmpty then d else s

/-- `tsFromStripeUnixSeconds` (part_000/part_001):
`if (!sec) return null; return new Date(sec * 1000)`.
Unix seconds in, milliseconds out; `0` is falsy in JavaScript. -/
def tsFromStripeUnixSeconds : Option Nat → Option Nat
  | none => none
  | some 0 => none
  | some s => some (s * 1000)

/-- The `event.data.object` payload, with every field optional as in a
dynamically-typed JSON object (absent field = `none`). -/
structure EventObject where
  id : Option String
  customer : Option String
  status : Option String
  current_period_end : Option Nat
  metadata_plan : Option String
  metadata_email : Option String
  customer_details_email : Option String
  customer_email : Option String
  subscription : Option String
  first_price_id : Option String
deriving DecidableEq, Repr

/-- A verified webhook event (`id`, `type`, `data.object`). -/
structure Event where
  id : String
  type : String
  object : EventObject
deriving DecidableEq, Repr

/-- The raw request body: the exact bytes received together with the
event those bytes encode. -/
structure RawBody where
  bytes : String
  event : Event
deriving DecidableEq, Repr

/-- A symbolic provider signature: it records which secret produced it
and exactly which bytes it signs. -/
structure StripeSig where
  secret : String
  signedBytes : String
deriving DecidableEq, Repr

/-- Modelled from the spec: the billing provider's webhook verifier
(the vendor SDK's `stripe.webhooks.constructEvent`, not part of this
repository) checks the signature header against the exact raw body
bytes with the given signing secret, returning the parsed event on
success.  It fails when the secret is absent (fail closed), the header
is absent, the signature was produced with a different secret, or it
signs different bytes (so any mutated byte of the body is rejected). -/
def constructEvent (secret : Option String) (body : RawBody)
    (sig : Option StripeSig) : Except String Event :=
  match secret with
  | none => .error "missing signing secret"
  | some s =>
    match sig with
    | none => .error "missing stripe-signature header"
    | some g =>
      if g.secret == s && g.signedBytes == body.bytes then .ok body.event
      else .error "signature verification failed"

/-- HTTP outcome of a webhook delivery:
`received` = 200 with a received:true body, `badRequest` = 400,
`serverError` = 500. -/
inductive Resp where
  | received
  | badRequest
  | serverError
deriving DecidableEq, Repr

/-- HTTP status code of a webhook response. -/
def Resp.code : Resp → Nat
  | .received => 200
  | .badRequest => 400
  | .serverError => 500

namespace ServerJs

/-- A row of the `users` table of `src/server.js` (subscription fields
folded onto the user row). -/
structure UserRow where
  email : String
  plan : String
  stripe_customer_id : Option String
  stripe_subscription_id : Option String
deriving DecidableEq, Repr

/-- Observable state of `src/server.js`: the `users` table, the
`webhook_events` idempotency ledger (event id, type), and the emails
handed to the email provider (recipient, kind). -/
structure SState where
  users : List UserRow
  events : List (String × String)
  sentEmails : List (String × String)
deriving DecidableEq, Repr

/-- `normalizePlan` (`src/server.js`):
lowercase, and anything outside starter/premium becomes free. -/
def normalizePlan (p : Option String) : String :=
  let plan := jsToLower (p.getD "")
  if plan == "starter" || plan == "premium" then plan else "free"

/-- SQL `COALESCE(EXCLUDED.x, users.x)`: keep the old value when the
new one is NULL. -/
def jsCoalesce (a b : Option String) : Option String :=
  match a with
  | some x => some x
  | none => b

/-- The `DO UPDATE` arm of the `upsertUser` query: set the plan, and
coalesce the customer / subscription ids with the stored ones. -/
def upsertRow (u : UserRow) (p : String) (cid sid : Option String) : UserRow :=
  { u with plan := p,
           stripe_customer_id := jsCoalesce cid u.stripe_customer_id,
           stripe_subscription_id := jsCoalesce sid u.stripe_subscription_id }

/-- `INSERT ... ON CONFLICT (email) DO UPDATE` over the list of user
rows (the email column is UNIQUE, so at most one row matches). -/
def upsertList (key p : String) (cid sid : Option String) :
    List UserRow → List UserRow
  | [] => [⟨key, p, cid, sid⟩]
  | u :: us =>
    if u.email == key then upsertRow u p cid sid :: us
    else u :: upsertList key p cid sid us

/-- `upsertUser` (`src/server.js`): no-op when the email is falsy;
otherwise upsert by the lowercased email with the normalized plan and
`customerId || null` / `subscriptionId || null`. -/
def upsertUser (users : List UserRow) (email plan cid sid : Option String) :
    List UserRow :=
  if strTruthy email then
    upsertList (jsToLower (email.getD "")) (normalizePlan plan)
      (jsOrNull cid) (jsOrNull sid) users
  else users

/-- `INSERT INTO webhook_events ... ON CONFLICT (event_id) DO NOTHING`. -/
def insertEventIfAbsent (ledger : List (String × String)) (eid ty : String) :
    List (String × String) :=
  if ledger.any (fun r => r.1 == eid) then ledger else ledger ++ [(eid, ty)]

/-- Environment of `src/server.js` for the active mode:
the configured `PRICE_*_<suffix>` variables, whether the email client
is configured (`resend && resendFrom` in the source), whether an email
send succeeds (`emailOk := false` means the provider throws), and the
billing provider's customer-email lookup. -/
structure Env where
  starterEur : Option String
  starterDkk : Option String
  premiumEur : Option String
  premiumDkk : Option String
  resendConfigured : Bool
  emailOk : Bool
  customerEmail : String → Option String

/-- `[a, b].filter(Boolean)`: keep the configured, non-empty ids. -/
def optTruthyList (a b : Option String) : List String :=
  (a.toList ++ b.toList).filter (fun s => !s.isEmpty)

/-- The event-type dispatch of the `/stripe-webhook` handler of
`src/server.js`, after signature verification and the idempotency
insert.  The three source branches are mutually exclusive tests on
`event.type`, so they are written as an if/else chain. -/
def processEvent (env : Env) (st : SState) (ev : Event) : SState × Resp :=
  if ev.type == "checkout.session.completed" then
    let o := ev.object
    let email := jsOrNull (jsOr o.customer_details_email o.customer_email)
    let plan := jsOrD o.metadata_plan "free"
    let users1 := upsertUser st.users email (some plan)
      (jsOrNull o.customer) (jsOrNull o.subscription)
    let sent1 :=
      if env.resendConfigured && strTruthy email && env.emailOk then
        st.sentEmails ++ [(email.getD "", "welcome")]
      else st.sentEmails
    ({ st with users := users1, sentEmails := sent1 }, .received)
  else if ev.type == "customer.subscription.created"
       || ev.type == "customer.subscription.updated" then
    let o := ev.object
    let email :=
      if strTruthy o.customer then jsOrNull (env.customerEmail (o.customer.getD ""))
      else none
    let plan0 := jsOrNull o.metadata_plan
    let starterIds := optTruthyList env.starterEur env.starterDkk
    let premiumIds := optTruthyList env.premiumEur env.premiumDkk
    let priceId := o.first_price_id
    let plan1 :=
      if !strTruthy plan0 && strTruthy priceId then
        let pid := priceId.getD ""
        let afterStarter := if starterIds.contains pid then some "starter" else plan0
        if premiumIds.contains pid then some "premium" else afterStarter
      else plan0
    let users1 := upsertUser st.users email (some (normalizePlan plan1))
      (jsOrNull o.customer) (jsOrNull o.id)
    ({ st with users := users1 }, .received)
  else if ev.type == "customer.subscription.deleted" then
    let o := ev.object
    let email :=
      if strTruthy o.customer then jsOrNull (env.customerEmail (o.customer.getD ""))
      else none
    let users1 := upsertUser st.users email (some "free") (jsOrNull o.customer) none
    let sent1 :=
      if env.resendConfigured && strTruthy email && env.emailOk then
        st.sentEmails ++ [(email.getD "", "cancel")]
      else st.sentEmails
    ({ st with users := users1, sentEmails := sent1 }, .received)
  else (st, .received)

/-- Proof-support projection: the effect of `processEvent` on the
`users` table alone (shown equal to the `users` component of
`processEvent` in `serverJs_processEvent_users_eq`). -/
def usersStep (env : Env) (ev : Event) (us : List UserRow) : List UserRow :=
  if ev.type == "checkout.session.completed" then
    let o := ev.object
    let email := jsOrNull (jsOr o.customer_details_email o.customer_email)
    let plan := jsOrD o.metadata_plan "free"
    upsertUser us email (some plan) (jsOrNull o.customer) (jsOrNull o.subscription)
  else if ev.type == "customer.subscription.created"
       || ev.type == "customer.subscription.updated" then
    let o := ev.object
    let email :=
      if strTruthy o.customer then jsOrNull (env.customerEmail (o.customer.getD ""))
      else none
    let plan0 := jsOrNull o.metadata_plan
    let starterIds := optTruthyList env.starterEur env.starterDkk
    let premiumIds := optTruthyList env.premiumEur env.premiumDkk
    let priceId := o.first_price_id
    let plan1 :=
      if !strTruthy plan0 && strTruthy priceId then
        let pid := priceId.getD ""
        let afterStarter := if starterIds.contains pid then some "starter" else plan0
        if premiumIds.contains pid then some "premium" else afterStarter
      else plan0
    upsertUser us email (some (normalizePlan plan1)) (jsOrNull o.customer) (jsOrNull o.id)
  else if ev.type == "customer.subscription.deleted" then
    let o := ev.object
    let email :=
      if strTruthy o.customer then jsOrNull (env.customerEmail (o.customer.getD ""))
      else none
    upsertUser us email (some "free") (jsOrNull o.customer) none
  else us

/-- `requireEnv` (`src/server.js`): throws when the variable is absent
or empty. -/
def requireEnv (name : String) (v : Option String) : Except String String :=
  match v with
  | none => .error ("Missing " ++ name ++ " in env")
  | some s =>
    if s.isEmpty then .error ("Missing " ++ name ++ " in env") else .ok s

/-- The `/stripe-webhook` endpoint of `src/server.js`.
`getStripeWebhookSecret()` (a `requireEnv`) runs before the handler's
try/catch: when the secret env variable is absent its exception escapes
the handler uncaught, modelled as `Except.error`.  A signature failure
yields 400 before any store mutation; on success the idempotency
record is attempted and then the event is processed. -/
def stripeWebhook (whSecretEnv : Option String) (env : Env) (st : SState)
    (body : RawBody) (sig : Option StripeSig) : Except String (SState × Resp) :=
  match requireEnv "STRIPE_WEBHOOK_SECRET_TEST" whSecretEnv with
  | .error e => .error e
  | .ok s =>
    match constructEvent (some s) body sig with
    | .error _ => .ok (st, .badRequest)
    | .ok ev =>
      let st1 := { st with events := insertEventIfAbsent st.events ev.id ev.type }
      .ok (processEvent env st1 ev)

end ServerJs

namespace Part000

/-- A row of the `users` table of `src/unnamed/part_000` /
`src/unnamed/part_001` (`id SERIAL`, `email UNIQUE`). -/
structure UserRow where
  id : Nat
  email : String
deriving DecidableEq, Repr

/-- A row of the `subscriptions` table
(`UNIQUE(stripe_subscription_id)`); `current_period_end` in
milliseconds since the epoch, NULLable. -/
structure SubRow where
  user_id : Nat
  stripe_subscription_id : String
  plan : String
  status : Option String
  current_period_end : Option Nat
deriving DecidableEq, Repr

/-- Observable store state of part_000 / part_001: both tables and the
next SERIAL user id. -/
structure DbState where
  users : List UserRow
  subs : List SubRow
  nextUserId : Nat
deriving DecidableEq, Repr

/-- Outcome of one webhook delivery: the database state afterwards,
the emails handed to the provider during this delivery
(recipient, kind), and the HTTP response. -/
structure HandlerResult where
  db : DbState
  emails : List (String × String)
  resp : Resp
deriving DecidableEq, Repr

/-- `upsertUserByEmail`: `INSERT ... ON CONFLICT (email) DO UPDATE SET
email = EXCLUDED.email RETURNING id, email`.  The email is stored
exactly as passed (the source does not lowercase it). -/
def upsertUserByEmail (st : DbState) (email : String) : UserRow × DbState :=
  match st.users.find? (fun u => u.email == email) with
  | some u => (u, st)
  | none =>
    let u : UserRow := ⟨st.nextUserId, email⟩
    (u, { st with users := st.users ++ [u], nextUserId := st.nextUserId + 1 })

/-- `INSERT ... ON CONFLICT (stripe_subscription_id) DO UPDATE` setting
every column: the matching row (unique) is replaced, otherwise the row
is appended. -/
def upsertSubList (row : SubRow) : List SubRow → List SubRow
  | [] => [row]
  | r :: rs =>
    if r.stripe_subscription_id == row.stripe_subscription_id then row :: rs
    else r :: upsertSubList row rs

/-- `upsertSubscription` (part_000 / part_001). -/
def upsertSubscription (st : DbState) (userId : Nat) (sid : String)
    (plan : String) (status : Option String) (cpe : Option Nat) : DbState :=
  { st with subs := upsertSubList ⟨userId, sid, plan, status, cpe⟩ st.subs }

/-- `markSubscriptionCanceledNow`: `UPDATE subscriptions SET
status = 'canceled', current_period_end = NOW() WHERE
stripe_subscription_id = $1`.  An absent id parameter (SQL NULL)
matches no row. -/
def markSubscriptionCanceledNow (st : DbState) (sid : Option String)
    (now : Nat) : DbState :=
  { st with subs := st.subs.map (fun r =>
      if some r.stripe_subscription_id == sid then
        { r with status := some "canceled", current_period_end := some now }
      else r) }

/-- The `UPDATE subscriptions SET status=$1, current_period_end=$2
WHERE stripe_subscription_id=$3` of the subscription-updated branch:
update in place, never insert. -/
def updateSubscriptionRow (st : DbState) (status : Option String)
    (cpe : Option Nat) (sid : Option String) : DbState :=
  { st with subs := st.subs.map (fun r =>
      if some r.stripe_subscription_id == sid then
        { r with status := status, current_period_end := cpe }
      else r) }

/-- Environment of part_000: the mode-selected webhook secret (absent
when the env variable is missing), the provider lookups
(`stripe.subscriptions.retrieve` returning status and
current_period_end in unix seconds, `stripe.customers.retrieve`
returning the customer email), whether an email send succeeds, and the
current time (milliseconds) used by SQL `NOW()` and `Date.now()`. -/
structure Env where
  whSecret : Option String
  retrieveSubStatus : String → Option String
  retrieveSubPeriodEnd : String → Option Nat
  customerEmail : String → Option String
  emailOk : Bool
  now : Nat

/-- The event-type dispatch of the `/webhook` handler of part_000.
The welcome email send is wrapped in its own try/catch, so a send
failure (`emailOk = false`: no email goes out) never changes the state
or the response.  The subscription-deleted branch sends no email in
this variant. -/
def processEvent (env : Env) (st : DbState) (ev : Event) : HandlerResult :=
  if ev.type == "checkout.session.completed" then
    let o := ev.object
    let email := jsOr (jsOr o.customer_details_email o.customer_email) o.metadata_email
    let plan := jsOrD o.metadata_plan "starter"
    let sid := o.subscription
    if !strTruthy email || !strTruthy sid then ⟨st, [], .received⟩
    else
      let sidv := sid.getD ""
      let status := env.retrieveSubStatus sidv
      let cpe := tsFromStripeUnixSeconds (env.retrieveSubPeriodEnd sidv)
      let (user, st1) := upsertUserByEmail st (email.getD "")
      let st2 := upsertSubscription st1 user.id sidv plan status cpe
      ⟨st2, if env.emailOk then [(email.getD "", "welcome")] else [], .received⟩
  else if ev.type == "customer.subscription.updated" then
    let o := ev.object
    ⟨updateSubscriptionRow st o.status
      (tsFromStripeUnixSeconds o.current_period_end) o.id, [], .received⟩
  else if ev.type == "customer.subscription.deleted" then
    ⟨markSubscriptionCanceledNow st ev.object.id env.now, [], .received⟩
  else ⟨st, [], .received⟩

/-- The `/webhook` endpoint of part_000: signature verification with
the mode-selected secret (an absent secret makes the SDK throw inside
the try/catch, hence 400) and then event processing. -/
def webhook (env : Env) (st : DbState) (body : RawBody)
    (sig : Option StripeSig) : HandlerResult :=
  match constructEvent env.whSecret body sig with
  | .error _ => ⟨st, [], .badRequest⟩
  | .ok ev => processEvent env st ev

/-- `isAccessActiveRow` (part_000 / part_001): the looked-up row grants
access iff its lowercased status is in the allowed-active set and its
current_period_end is non-null and strictly in the future. -/
def isAccessActiveRow (row : Option SubRow) (now : Nat) : Bool :=
  match row with
  | none => false
  | some r =>
    let status := jsToLower (r.status.getD "")
    if !(["active", "trialing", "past_due"].contains status) then false
    else
      match r.current_period_end with
      | none => false
      | some e => decide (e > now)

/-- The rows produced by `JOIN subscriptions s ON s.user_id = u.id
WHERE u.email = $1`. -/
def subRowsForEmail (st : DbState) (email : String) : List SubRow :=
  st.subs.filter (fun s =>
    st.users.any (fun u => u.id == s.user_id && u.email == email))

/-- `ORDER BY s.current_period_end DESC NULLS LAST` preference between
two rows (ties keep the first). -/
def betterRow (a b : SubRow) : SubRow :=
  match a.current_period_end, b.current_period_end with
  | some x, some y => if y > x then b else a
  | some _, none => a
  | none, some _ => b
  | none, none => a

/-- `ORDER BY s.current_period_end DESC NULLS LAST LIMIT 1`. -/
def pickLatest : List SubRow → Option SubRow
  | [] => none
  | r :: rs => some (rs.foldl betterRow r)

/-- Response of the auth endpoints: HTTP code and the `ok` flag of the
JSON body. -/
structure AuthResp where
  code : Nat
  ok : Bool
deriving DecidableEq, Repr

/-- `GET /auth/check` (part_000 / part_001): normalize the supplied
email (trim + lowercase), look up the most recent subscription row of
that user, and grant access iff `isAccessActiveRow` accepts it. -/
def authCheck (st : DbState) (now : Nat) (emailQ : Option String) : AuthResp :=
  let email := jsToLower (jsTrim (emailQ.getD ""))
  if email.isEmpty then ⟨400, false⟩
  else
    match pickLatest (subRowsForEmail st email) with
    | none => ⟨401, false⟩
    | some row =>
      if isAccessActiveRow (some row) now then ⟨200, true⟩ else ⟨401, false⟩

/-- `POST /auth/login` (part_000 / part_001): identical query and
decision logic to `auth/check`, with the email taken from the request
body. -/
def authLogin (st : DbState) (now : Nat) (emailB : Option String) : AuthResp :=
  let email := jsToLower (jsTrim (emailB.getD ""))
  if email.isEmpty then ⟨400, false⟩
  else
    match pickLatest (subRowsForEmail st email) with
    | none => ⟨401, false⟩
    | some row =>
      if isAccessActiveRow (some row) now then ⟨200, true⟩ else ⟨401, false⟩

/-- The spec's access invariant, stated over a stored row in the
spec's terms: lowercased status in the allowed-active set AND
current_period_end present and strictly in the future.  Compared with
the source's `isAccessActiveRow` in claim C2. -/
def specAccessGranted (r : SubRow) (now : Nat) : Bool :=
  (["active", "trialing", "past_due"].contains (jsToLower (r.status.getD "")))
    && (match r.current_period_end with
        | some pe => decide (now < pe)
        | none => false)

/-- The user-then-subscription upsert pair of the checkout branch
(proof support, extracted verbatim from the branch body). -/
def checkoutUpserts (st : DbState) (e sidv plan : String)
    (status : Option String) (cpe : Option Nat) : DbState :=
  let (user, st1) := upsertUserByEmail st e
  upsertSubscription st1 user.id sidv plan status cpe

/-- Proof-support projection: the effect of part_000's `processEvent`
on the database state alone; shown equal to the `db` component of
`processEvent` in `part000_processEvent_db_eq`. -/
def dbStep (env : Env) (ev : Event) (st : DbState) : DbState :=
  if ev.type == "checkout.session.completed" then
    let o := ev.object
    let email := jsOr (jsOr o.customer_details_email o.customer_email) o.metadata_email
    let plan := jsOrD o.metadata_plan "starter"
    let sid := o.subscription
    if !strTruthy email || !strTruthy sid then st
    else
      let sidv := sid.getD ""
      let status := env.retrieveSubStatus sidv
      let cpe := tsFromStripeUnixSeconds (env.retrieveSubPeriodEnd sidv)
      checkoutUpserts st (email.getD "") sidv plan status cpe
  else if ev.type == "customer.subscription.updated" then
    let o := ev.object
    updateSubscriptionRow st o.status
      (tsFromStripeUnixSeconds o.current_period_end) o.id
  else if ev.type == "customer.subscription.deleted" then
    markSubscriptionCanceledNow st ev.object.id env.now
  else st

end Part000

namespace Part001

/-- Environment of part_001: the handler reads
`process.env.STRIPE_WEBHOOK_SECRET` directly and guards explicitly on
its absence.  The store schema and DB helpers are character-for-
character the same as part_000's, so `Part000.DbState` and its
operations are reused. -/
structure Env where
  endpointSecret : Option String
  retrieveSubStatus : String → Option String
  retrieveSubPeriodEnd : String → Option Nat
  customerEmail : String → Option String
  emailOk : Bool
  now : Nat

open Part000 in
/-- The event-type dispatch of the `/webhook` handler of part_001.
Unlike part_000, the welcome and cancellation email sends sit inside
only the outer try/catch: a send failure (`emailOk = false`) after the
DB mutation is caught by the outer handler and yields 500. -/
def processEvent (env : Env) (st : DbState) (ev : Event) : HandlerResult :=
  if ev.type == "checkout.session.completed" then
    let o := ev.object
    let email := jsOr (jsOr o.customer_details_email o.customer_email) o.metadata_email
    let plan := jsOrD o.metadata_plan "starter"
    let sid := o.subscription
    if strTruthy email && strTruthy sid then
      let sidv := sid.getD ""
      let status := jsOrD (env.retrieveSubStatus sidv) "active"
      let cpe := tsFromStripeUnixSeconds (env.retrieveSubPeriodEnd sidv)
      let (user, st1) := upsertUserByEmail st (email.getD "")
      let st2 := upsertSubscription st1 user.id sidv plan (some status) cpe
      if env.emailOk then ⟨st2, [(email.getD "", "welcome")], .received⟩
      else ⟨st2, [], .serverError⟩
    else ⟨st, [], .received⟩
  else if ev.type == "customer.subscription.updated" then
    let o := ev.object
    ⟨updateSubscriptionRow st (some (jsOrD o.status "active"))
      (tsFromStripeUnixSeconds o.current_period_end) o.id, [], .received⟩
  else if ev.type == "customer.subscription.deleted" then
    let o := ev.object
    let st1 := markSubscriptionCanceledNow st o.id env.now
    let email :=
      if strTruthy o.customer then jsOrNull (env.customerEmail (o.customer.getD ""))
      else none
    if strTruthy email then
      if env.emailOk then ⟨st1, [(email.getD "", "cancel")], .received⟩
      else ⟨st1, [], .serverError⟩
    else ⟨st1, [], .received⟩
  else ⟨st, [], .received⟩

open Part000 in
/-- The `/webhook` endpoint of part_001: `if (!endpointSecret) throw`
inside the verification try/catch (fail closed with 400), then
signature verification, then event processing. -/
def webhook (env : Env) (st : DbState) (body : RawBody)
    (sig : Option StripeSig) : HandlerResult :=
  match env.endpointSecret with
  | none => ⟨st, [], .badRequest⟩
  | some s =>
    if s.isEmpty then ⟨st, [], .badRequest⟩
    else
      match constructEvent (some s) body sig with
      | .error _ => ⟨st, [], .badRequest⟩
      | .ok ev => processEvent env st ev

end Part001

/-! ## Helper lemmas -/

theorem jsCoalesce_absorb (a b : Option String) :
    ServerJs.jsCoalesce a (ServerJs.jsCoalesce a b) = ServerJs.jsCoalesce a b := by
  cases a <;> simp [ServerJs.jsCoalesce]

theorem jsCoalesce_self (a : Option String) : ServerJs.jsCoalesce a a = a := by
  cases a <;> simp [ServerJs.jsCoalesce]

theorem upsertRow_email (u : ServerJs.UserRow) (p : String)
    (cid sid : Option String) : (ServerJs.upsertRow u p cid sid).email = u.email := rfl

theorem upsertRow_plan (u : ServerJs.UserRow) (p : String)
    (cid sid : Option String) : (ServerJs.upsertRow u p cid sid).plan = p := rfl

theorem upsertRow_idem (u : ServerJs.UserRow) (p : String)
    (cid sid : Option String) :
    ServerJs.upsertRow (ServerJs.upsertRow u p cid sid) p cid sid
      = ServerJs.upsertRow u p cid sid := by
  simp [ServerJs.upsertRow, jsCoalesce_absorb]

theorem upsertList_idem (key p : String) (cid sid : Option String)
    (us : List ServerJs.UserRow) :
    ServerJs.upsertList key p cid sid (ServerJs.upsertList key p cid sid us)
      = ServerJs.upsertList key p cid sid us := by
  induction us with
  | nil =>
    simp [ServerJs.upsertList, ServerJs.upsertRow, jsCoalesce_self]
  | cons u us ih =>
    by_cases h : (u.email == key) = true
    · simp [ServerJs.upsertList, h, upsertRow_email, upsertRow_idem]
    · simp only [Bool.not_eq_true] at h
      simp [ServerJs.upsertList, h, ih]

theorem upsertUser_idem (us : List ServerJs.UserRow)
    (email plan cid sid : Option String) :
    ServerJs.upsertUser (ServerJs.upsertUser us email plan cid sid)
        email plan cid sid
      = ServerJs.upsertUser us email plan cid sid := by
  by_cases h : strTruthy email = true
  · simp [ServerJs.upsertUser, h, upsertList_idem]
  · simp only [Bool.not_eq_true] at h
    simp [ServerJs.upsertUser, h]

theorem find_upsertList_plan (key p : String) (cid sid : Option String)
    (us : List ServerJs.UserRow) :
    ((ServerJs.upsertList key p cid sid us).find?
        (fun u => u.email == key)).map (fun u => u.plan) = some p := by
  induction us with
  | nil => simp [ServerJs.upsertList, List.find?]
  | cons u us ih =>
    by_cases h : (u.email == key) = true
    · simp [ServerJs.upsertList, h, List.find?, upsertRow_email, upsertRow_plan]
    · simp only [Bool.not_eq_true] at h
      simp [ServerJs.upsertList, h, List.find?, ih]

theorem insertEventIfAbsent_mem (l : List (String × String)) (eid ty : String) :
    (ServerJs.insertEventIfAbsent l eid ty).any (fun r => r.1 == eid) = true := by
  by_cases h : l.any (fun r => r.1 == eid) = true
  · simp [ServerJs.insertEventIfAbsent, h]
  · simp only [Bool.not_eq_true] at h
    simp [ServerJs.insertEventIfAbsent, h, List.any_append]

theorem insertEventIfAbsent_idem (l : List (String × String)) (eid ty ty' : String) :
    ServerJs.insertEventIfAbsent (ServerJs.insertEventIfAbsent l eid ty) eid ty'
      = ServerJs.insertEventIfAbsent l eid ty := by
  have h := insertEventIfAbsent_mem l eid ty
  generalize hl : ServerJs.insertEventIfAbsent l eid ty = l' at h ⊢
  simp [ServerJs.insertEventIfAbsent, h]

theorem serverJs_processEvent_resp (env : ServerJs.Env) (st : ServerJs.SState)
    (ev : Event) : (ServerJs.processEvent env st ev).2 = Resp.received := by
  unfold ServerJs.processEvent
  split
  · rfl
  · split
    · rfl
    · split <;> rfl

theorem serverJs_processEvent_events (env : ServerJs.Env) (st : ServerJs.SState)
    (ev : Event) : (ServerJs.processEvent env st ev).1.events = st.events := by
  unfold ServerJs.processEvent
  split
  · rfl
  · split
    · rfl
    · split <;> rfl

theorem serverJs_processEvent_users_eq (env : ServerJs.Env)
    (st : ServerJs.SState) (ev : Event) :
    (ServerJs.processEvent env st ev).1.users
      = ServerJs.usersStep env ev st.users := by
  unfold ServerJs.processEvent ServerJs.usersStep
  split
  · rfl
  · split
    · rfl
    · split <;> rfl

theorem usersStep_idem (env : ServerJs.Env) (ev : Event)
    (us : List ServerJs.UserRow) :
    ServerJs.usersStep env ev (ServerJs.usersStep env ev us)
      = ServerJs.usersStep env ev us := by
  unfold ServerJs.usersStep
  split
  · exact upsertUser_idem _ _ _ _ _
  · split
    · exact upsertUser_idem _ _ _ _ _
    · split
      · exact upsertUser_idem _ _ _ _ _
      · rfl

theorem usersStep_emailOk (env : ServerJs.Env) (b : Bool) (ev : Event)
    (us : List ServerJs.UserRow) :
    ServerJs.usersStep { env with emailOk := b } ev us
      = ServerJs.usersStep env ev us := by
  unfold ServerJs.usersStep
  split
  · rfl
  · split
    · rfl
    · split <;> rfl

theorem upsertSubList_idem (row : Part000.SubRow) (l : List Part000.SubRow) :
    Part000.upsertSubList row (Part000.upsertSubList row l)
      = Part000.upsertSubList row l := by
  induction l with
  | nil => simp [Part000.upsertSubList]
  | cons r rs ih =>
    by_cases h : (r.stripe_subscription_id == row.stripe_subscription_id) = true
    · simp [Part000.upsertSubList, h]
    · simp only [Bool.not_eq_true] at h
      simp [Part000.upsertSubList, h, ih]

theorem find_upsertSubList (row : Part000.SubRow) (l : List Part000.SubRow) :
    (Part000.upsertSubList row l).find?
        (fun r => r.stripe_subscription_id == row.stripe_subscription_id)
      = some row := by
  induction l with
  | nil => simp [Part000.upsertSubList, List.find?]
  | cons r rs ih =>
    by_cases h : (r.stripe_subscription_id == row.stripe_subscription_id) = true
    · simp [Part000.upsertSubList, h, List.find?]
    · simp only [Bool.not_eq_true] at h
      simp [Part000.upsertSubList, h, List.find?, ih]

theorem upsertUserByEmail_find (st : Part000.DbState) (e : String) :
    (Part000.upsertUserByEmail st e).2.users.find? (fun u => u.email == e)
      = some (Part000.upsertUserByEmail st e).1 := by
  unfold Part000.upsertUserByEmail
  cases hf : st.users.find? (fun u => u.email == e) with
  | some u => simp [hf]
  | none => simp [hf, List.find?_append, List.find?]

theorem upsertUserByEmail_idem (st : Part000.DbState) (e : String) :
    Part000.upsertUserByEmail (Part000.upsertUserByEmail st e).2 e
      = ((Part000.upsertUserByEmail st e).1, (Part000.upsertUserByEmail st e).2) := by
  have h := upsertUserByEmail_find st e
  generalize hp : Part000.upsertUserByEmail st e = p at h ⊢
  unfold Part000.upsertUserByEmail
  simp [h]

theorem betterRow_eq_or (a b : Part000.SubRow) :
    Part000.betterRow a b = a ∨ Part000.betterRow a b = b := by
  unfold Part000.betterRow
  split <;> first
    | (left ; rfl)
    | (right ; rfl)
    | (split
       · right ; rfl
       · left ; rfl)

theorem foldl_betterRow_mem (l : List Part000.SubRow) (a : Part000.SubRow) :
    l.foldl Part000.betterRow a ∈ a :: l := by
  induction l generalizing a with
  | nil => simp
  | cons b rs ih =>
    have h := ih (Part000.betterRow a b)
    rcases betterRow_eq_or a b with hb | hb <;>
      · rw [List.foldl_cons]
        rcases List.mem_cons.mp h with h1 | h1
        · rw [h1, hb] ; simp
        · simp [h1]

theorem pickLatest_mem (l : List Part000.SubRow) (r : Part000.SubRow)
    (h : Part000.pickLatest l = some r) : r ∈ l := by
  cases l with
  | nil => simp [Part000.pickLatest] at h
  | cons a rs =>
    simp only [Part000.pickLatest, Option.some.injEq] at h
    have := foldl_betterRow_mem rs a
    rw [h] at this
    exact this

theorem part000_processEvent_db_eq (env : Part000.Env) (st : Part000.DbState)
    (ev : Event) :
    (Part000.processEvent env st ev).db = Part000.dbStep env ev st := by
  unfold Part000.processEvent Part000.dbStep Part000.checkoutUpserts
  dsimp only
  split
  · split
    · rfl
    · rfl
  · split
    · rfl
    · split <;> rfl

theorem part000_processEvent_resp (env : Part000.Env) (st : Part000.DbState)
    (ev : Event) : (Part000.processEvent env st ev).resp = Resp.received := by
  unfold Part000.processEvent
  dsimp only
  split
  · split <;> rfl
  · split
    · rfl
    · split <;> rfl

theorem upsertUserByEmail_of_find (st : Part000.DbState) (e : String)
    (u : Part000.UserRow) (h : st.users.find? (fun x => x.email == e) = some u) :
    Part000.upsertUserByEmail st e = (u, st) := by
  unfold Part000.upsertUserByEmail
  simp [h]

theorem upsertSubscription_users (st : Part000.DbState) (uid : Nat)
    (sid plan : String) (status : Option String) (cpe : Option Nat) :
    (Part000.upsertSubscription st uid sid plan status cpe).users = st.users := rfl

theorem checkoutUpserts_idem (st : Part000.DbState) (e sidv plan : String)
    (status : Option String) (cpe : Option Nat) :
    Part000.checkoutUpserts (Part000.checkoutUpserts st e sidv plan status cpe)
        e sidv plan status cpe
      = Part000.checkoutUpserts st e sidv plan status cpe := by
  rcases hA : Part000.upsertUserByEmail st e with ⟨u, s1⟩
  have hfind : s1.users.find? (fun x => x.email == e) = some u := by
    have h := upsertUserByEmail_find st e
    rw [hA] at h
    exact h
  have hB : Part000.checkoutUpserts st e sidv plan status cpe
      = Part000.upsertSubscription s1 u.id sidv plan status cpe := by
    unfold Part000.checkoutUpserts
    rw [hA]
  rw [hB]
  have hfind2 : (Part000.upsertSubscription s1 u.id sidv plan status cpe).users.find?
      (fun x => x.email == e) = some u := by
    rw [upsertSubscription_users]
    exact hfind
  unfold Part000.checkoutUpserts
  rw [upsertUserByEmail_of_find _ _ _ hfind2]
  unfold Part000.upsertSubscription
  simp [upsertSubList_idem]

theorem updateSubscriptionRow_idem (st : Part000.DbState)
    (status : Option String) (cpe : Option Nat) (sid : Option String) :
    Part000.updateSubscriptionRow
        (Part000.updateSubscriptionRow st status cpe sid) status cpe sid
      = Part000.updateSubscriptionRow st status cpe sid := by
  unfold Part000.updateSubscriptionRow
  simp only [List.map_map]
  congr 1
  apply List.map_congr_left
  intro r _
  by_cases h : (some r.stripe_subscription_id == sid) = true
  · simp [Function.comp, h]
  · simp only [Bool.not_eq_true] at h
    simp [Function.comp, h]

theorem markSubscriptionCanceledNow_idem (st : Part000.DbState)
    (sid : Option String) (now : Nat) :
    Part000.markSubscriptionCanceledNow
        (Part000.markSubscriptionCanceledNow st sid now) sid now
      = Part000.markSubscriptionCanceledNow st sid now := by
  unfold Part000.markSubscriptionCanceledNow
  simp only [List.map_map]
  congr 1
  apply List.map_congr_left
  intro r _
  by_cases h : (some r.stripe_subscription_id == sid) = true
  · simp [Function.comp, h]
  · simp only [Bool.not_eq_true] at h
    simp [Function.comp, h]

theorem part000_dbStep_idem (env : Part000.Env) (ev : Event)
    (st : Part000.DbState) :
    Part000.dbStep env ev (Part000.dbStep env ev st)
      = Part000.dbStep env ev st := by
  unfold Part000.dbStep
  dsimp only
  split
  · split
    · rfl
    · exact checkoutUpserts_idem _ _ _ _ _ _
  · split
    · exact updateSubscriptionRow_idem _ _ _ _
    · split
      · exact markSubscriptionCanceledNow_idem _ _ _
      · rfl

theorem part000_dbStep_emailOk (env : Part000.Env) (b : Bool) (ev : Event)
    (st : Part000.DbState) :
    Part000.dbStep { env with emailOk := b } ev st = Part000.dbStep env ev st := by
  unfold Part000.dbStep
  split
  · rfl
  · split
    · rfl
    · split <;> rfl

theorem isAccessActiveRow_eq_spec (r : Part000.SubRow) (now : Nat) :
    Part000.isAccessActiveRow (some r) now = Part000.specAccessGranted r now := by
  unfold Part000.isAccessActiveRow Part000.specAccessGranted
  dsimp only
  by_cases h : (["active", "trialing", "past_due"].contains
      (jsToLower (r.status.getD ""))) = true
  · rw [h]
    cases r.current_period_end <;> simp
  · simp only [Bool.not_eq_true] at h
    rw [h]
    cases r.current_period_end <;> simp

theorem specAccessGranted_iff (r : Part000.SubRow) (now : Nat) :
    Part000.specAccessGranted r now = true ↔
      ((["active", "trialing", "past_due"].contains
          (jsToLower (r.status.getD ""))) = true
        ∧ ∃ pe, r.current_period_end = some pe ∧ now < pe) := by
  unfold Part000.specAccessGranted
  cases hc : r.current_period_end with
  | none => simp
  | some pe => simp [Bool.and_eq_true]

theorem strTruthy_jsOrNull (a : Option String) :
    strTruthy (jsOrNull a) = strTruthy a := by
  unfold jsOrNull
  by_cases h : strTruthy a = true
  · simp [h]
  · simp only [Bool.not_eq_true] at h
    rw [h]
    simp [strTruthy]

theorem jsOrNull_of_falsy (a : Option String) (h : strTruthy a = false) :
    jsOrNull a = none := by
  unfold jsOrNull
  simp [h]

theorem jsOrNull_of_truthy (a : Option String) (h : strTruthy a = true) :
    jsOrNull a = a := by
  unfold jsOrNull
  simp [h]

theorem normalizePlan_idem (p : Option String) :
    ServerJs.normalizePlan (some (ServerJs.normalizePlan p))
      = ServerJs.normalizePlan p := by
  unfold ServerJs.normalizePlan
  dsimp only
  by_cases h : (jsToLower (p.getD "") == "starter"
      || jsToLower (p.getD "") == "premium") = true
  · rw [if_pos h]
    rcases Bool.or_eq_true_iff.mp h with h1 | h1
    · rw [beq_iff_eq.mp h1]
      decide
    · rw [beq_iff_eq.mp h1]
      decide
  · rw [if_neg h]
    decide

/-- Plan stored by the subscription created/updated branch of
`src/server.js` when metadata is absent and a price id is present:
the price-id fallback table lookup, premium checked last. -/
theorem serverJs_subscription_plan_fallback (env : ServerJs.Env)
    (st : ServerJs.SState) (ev : Event) (pid c e : String)
    (ht : ev.type = "customer.subscription.created"
          ∨ ev.type = "customer.subscription.updated")
    (hmeta : strTruthy ev.object.metadata_plan = false)
    (hpid : ev.object.first_price_id = some pid) (hpne : pid.isEmpty = false)
    (hcust : ev.object.customer = some c) (hcne : c.isEmpty = false)
    (hemail : env.customerEmail c = some e) (hene : e.isEmpty = false) :
    ((ServerJs.processEvent env st ev).1.users.find?
        (fun u => u.email == jsToLower e)).map (fun u => u.plan)
      = some (ServerJs.normalizePlan
          (if (ServerJs.optTruthyList env.premiumEur env.premiumDkk).contains pid
           then some "premium"
           else if (ServerJs.optTruthyList env.starterEur env.starterDkk).contains pid
           then some "starter"
           else none)) := by
  rw [serverJs_processEvent_users_eq]
  unfold ServerJs.usersStep
  have hne : (ev.type == "checkout.session.completed") = false := by
    rcases ht with h | h <;> simp [h]
  have hyes : (ev.type == "customer.subscription.created"
      || ev.type == "customer.subscription.updated") = true := by
    rcases ht with h | h <;> simp [h]
  rw [if_neg (show ¬ ((ev.type == "checkout.session.completed") = true) by
        simp [hne]),
      if_pos hyes]
  dsimp only
  rw [hcust, hpid]
  have hct : strTruthy (some c) = true := by simp [strTruthy, hcne]
  have het : strTruthy (some e) = true := by simp [strTruthy, hene]
  have hpt : strTruthy (some pid) = true := by simp [strTruthy, hpne]
  rw [jsOrNull_of_falsy _ hmeta]
  simp [hct, het, hpt, hemail, hene, hcne, hpne, jsOrNull_of_truthy _ het,
    strTruthy, ServerJs.upsertUser, find_upsertList_plan, normalizePlan_idem]

theorem optTruthyList_contains_left (a b : Option String) (pid : String)
    (ha : a = some pid) (hne : pid.isEmpty = false) :
    (ServerJs.optTruthyList a b).contains pid = true := by
  subst ha
  unfold ServerJs.optTruthyList
  simp [hne]

/-! ## Claims -/

/-- C2: for a stored subscription row, `auth/check` and `auth/login`
grant access (200 with ok:true) iff the row's status is in the
allowed-active set {active, trialing, past_due} and its
current_period_end is present and strictly in the future; every other
combination (status not allowed, period-end missing, period-end not in
the future) yields 401.  The handlers decide exactly by the spec's
condition `specAccessGranted`. -/
theorem c2_access_invariant (u : Part000.UserRow) (r : Part000.SubRow)
    (q : Option String) (e : String) (now n : Nat)
    (hq : jsToLower (jsTrim (q.getD "")) = e) (hne : e.isEmpty = false)
    (hu : u.email = e) (hr : r.user_id = u.id) :
    (Part000.authCheck ⟨[u], [r], n⟩ now q
        = if Part000.specAccessGranted r now then ⟨200, true⟩ else ⟨401, false⟩)
    ∧ (Part000.authLogin ⟨[u], [r], n⟩ now q
        = if Part000.specAccessGranted r now then ⟨200, true⟩ else ⟨401, false⟩)
    ∧ (Part000.specAccessGranted r now = true ↔
        ((["active", "trialing", "past_due"].contains
            (jsToLower (r.status.getD ""))) = true
          ∧ ∃ pe, r.current_period_end = some pe ∧ now < pe)) := by
  have hrows : Part000.subRowsForEmail ⟨[u], [r], n⟩ e = [r] := by
    simp [Part000.subRowsForEmail, hu, hr]
  have hpick : Part000.pickLatest [r] = some r := by
    simp [Part000.pickLatest]
  refine ⟨?_, ?_, specAccessGranted_iff r now⟩
  · unfold Part000.authCheck
    dsimp only
    rw [hq, hne, hrows, hpick]
    simp [isAccessActiveRow_eq_spec]
  · unfold Part000.authLogin
    dsimp only
    rw [hq, hne, hrows, hpick]
    simp [isAccessActiveRow_eq_spec]

/-- C2 witness: a row with status active and period-end one hour in
the future grants access at the present instant; the same row with
period-end one hour in the past is denied with 401. -/
theorem c2_access_invariant_witness :
    Part000.authCheck ⟨[⟨1, "a@x.com"⟩],
        [⟨1, "sub_1", "starter", some "active", some 7200000⟩], 2⟩ 3600000
        (some "a@x.com") = ⟨200, true⟩
    ∧ Part000.authCheck ⟨[⟨1, "a@x.com"⟩],
        [⟨1, "sub_1", "starter", some "active", some 3600000⟩], 2⟩ 7200000
        (some "a@x.com") = ⟨401, false⟩ := by
  constructor
  · have h := c2_access_invariant ⟨1, "a@x.com"⟩
      ⟨1, "sub_1", "starter", some "active", some 7200000⟩ (some "a@x.com")
      "a@x.com" 3600000 2 (by decide) (by decide) rfl rfl
    rw [h.1]
    decide
  · have h := c2_access_invariant ⟨1, "a@x.com"⟩
      ⟨1, "sub_1", "starter", some "active", some 3600000⟩ (some "a@x.com")
      "a@x.com" 7200000 2 (by decide) (by decide) rfl rfl
    rw [h.1]
    decide

/-- C3: processing a subscription-deleted event acknowledges with 200
and sets every stored row matching the event's subscription id to
status canceled with current_period_end equal to the current time,
regardless of the previously stored period-end; such a row fails the
access predicate at every instant, and any subsequent access check
that resolves to that subscription is denied. -/
theorem c3_deleted_revokes_now (env : Part000.Env) (st : Part000.DbState)
    (ev : Event) (sid : String)
    (ht : ev.type = "customer.subscription.deleted")
    (hid : ev.object.id = some sid) :
    ((Part000.processEvent env st ev).resp = Resp.received)
    ∧ (∀ r ∈ (Part000.processEvent env st ev).db.subs,
        r.stripe_subscription_id = sid →
          r.status = some "canceled" ∧ r.current_period_end = some env.now)
    ∧ (∀ r ∈ (Part000.processEvent env st ev).db.subs,
        r.stripe_subscription_id = sid →
          ∀ t, Part000.isAccessActiveRow (some r) t = false)
    ∧ ((∃ r ∈ st.subs, r.stripe_subscription_id = sid) →
        ∃ r ∈ (Part000.processEvent env st ev).db.subs,
          r.stripe_subscription_id = sid)
    ∧ (∀ q t,
        (∀ r ∈ Part000.subRowsForEmail (Part000.processEvent env st ev).db
            (jsToLower (jsTrim (q.getD ""))),
          r.stripe_subscription_id = sid) →
        (Part000.authCheck (Part000.processEvent env st ev).db t q).ok = false) := by
  have hdb : (Part000.processEvent env st ev).db
      = Part000.markSubscriptionCanceledNow st (some sid) env.now := by
    rw [part000_processEvent_db_eq]
    simp [Part000.dbStep, ht, hid]
  have hcanc : ∀ r ∈ (Part000.processEvent env st ev).db.subs,
      r.stripe_subscription_id = sid →
        r.status = some "canceled" ∧ r.current_period_end = some env.now := by
    rw [hdb]
    intro r hr hsid
    unfold Part000.markSubscriptionCanceledNow at hr
    simp only [List.mem_map] at hr
    rcases hr with ⟨r₀, _, hmap⟩
    by_cases h : (some r₀.stripe_subscription_id == some sid) = true
    · rw [if_pos h] at hmap
      subst hmap
      exact ⟨rfl, rfl⟩
    · rw [if_neg h] at hmap
      subst hmap
      exact absurd (by simp [hsid]) h
  have haccess : ∀ r ∈ (Part000.processEvent env st ev).db.subs,
      r.stripe_subscription_id = sid →
        ∀ t, Part000.isAccessActiveRow (some r) t = false := by
    intro r hr hsid t
    obtain ⟨hs, _⟩ := hcanc r hr hsid
    rw [isAccessActiveRow_eq_spec]
    unfold Part000.specAccessGranted
    rw [hs]
    have hco : (["active", "trialing", "past_due"].contains
        (jsToLower ((some "canceled").getD ""))) = false := by decide
    rw [hco, Bool.false_and]
  refine ⟨part000_processEvent_resp env st ev, hcanc, haccess, ?_, ?_⟩
  · rintro ⟨r, hr, hsid⟩
    rw [hdb]
    have hcond : (some r.stripe_subscription_id == some sid) = true := by
      simp [hsid]
    refine ⟨_, List.mem_map_of_mem _ hr, ?_⟩
    rw [if_pos hcond]
    exact hsid
  · intro q t hall
    unfold Part000.authCheck
    dsimp only
    by_cases hemp : (jsToLower (jsTrim (q.getD ""))).isEmpty = true
    · simp [hemp]
    · simp only [Bool.not_eq_true] at hemp
      cases hpk : Part000.pickLatest (Part000.subRowsForEmail
          (Part000.processEvent env st ev).db (jsToLower (jsTrim (q.getD "")))) with
      | none => simp [hemp, hpk]
      | some row =>
        have hmem := pickLatest_mem _ _ hpk
        have hsidr := hall row hmem
        have hrow_in : row ∈ (Part000.processEvent env st ev).db.subs := by
          have := hmem
          unfold Part000.subRowsForEmail at this
          exact (List.mem_filter.mp this).1
        have hacc := haccess row hrow_in hsidr t
        simp [hemp, hpk, hacc]

/-- C3 witness: a deleted event for sub_1 on a store whose only
subscription row has a far-future period-end; the subsequent access
check is denied. -/
theorem c3_deleted_revokes_now_witness :
    (Part000.authCheck
        (Part000.processEvent
          ⟨some "whsec", fun _ => none, fun _ => none, fun _ => none, true, 5000⟩
          ⟨[⟨1, "b@y.com"⟩], [⟨1, "sub_1", "premium", some "active",
            some 999999999999⟩], 2⟩
          ⟨"evt_3", "customer.subscription.deleted",
            ⟨some "sub_1", none, none, none, none, none, none, none, none, none⟩⟩).db
        6000 (some "b@y.com")).ok = false := by
  have h := c3_deleted_revokes_now
    ⟨some "whsec", fun _ => none, fun _ => none, fun _ => none, true, 5000⟩
    ⟨[⟨1, "b@y.com"⟩], [⟨1, "sub_1", "premium", some "active",
      some 999999999999⟩], 2⟩
    ⟨"evt_3", "customer.subscription.deleted",
      ⟨some "sub_1", none, none, none, none, none, none, none, none, none⟩⟩
    "sub_1" rfl rfl
  exact h.2.2.2.2 (some "b@y.com") 6000 (by decide)

/-- C9 (code-bug exhibit): part_000's checkout path stores the user
email verbatim — `upsertUserByEmail` does not lowercase — while the
auth read paths lowercase their query.  A checkout event for
"A@X.com" creates the user with the uppercase spelling and an active,
far-future subscription, yet `auth/check` denies both "A@X.com" and
"a@x.com" with 401 because the lowercased lookup misses the row.
`src/server.js`'s `upsertUser`, by contrast, lowercases on write. -/
theorem c9_lowercase_on_write_bug :
    ((Part000.processEvent
        ⟨some "whsec", fun _ => some "active", fun _ => some 2000000000,
          fun _ => none, true, 0⟩ ⟨[], [], 0⟩
        ⟨"evt_9", "checkout.session.completed",
          ⟨none, none, none, none, some "starter", none, some "A@X.com",
            none, some "sub_9", none⟩⟩).db.users = [⟨0, "A@X.com"⟩])
    ∧ (Part000.isAccessActiveRow
        (some ⟨0, "sub_9", "starter", some "active", some 2000000000000⟩) 0
          = true)
    ∧ (Part000.authCheck
        (Part000.processEvent
          ⟨some "whsec", fun _ => some "active", fun _ => some 2000000000,
            fun _ => none, true, 0⟩ ⟨[], [], 0⟩
          ⟨"evt_9", "checkout.session.completed",
            ⟨none, none, none, none, some "starter", none, some "A@X.com",
              none, some "sub_9", none⟩⟩).db 0 (some "A@X.com")
        = ⟨401, false⟩)
    ∧ (Part000.authCheck
        (Part000.processEvent
          ⟨some "whsec", fun _ => some "active", fun _ => some 2000000000,
            fun _ => none, true, 0⟩ ⟨[], [], 0⟩
          ⟨"evt_9", "checkout.session.completed",
            ⟨none, none, none, none, some "starter", none, some "A@X.com",
              none, some "sub_9", none⟩⟩).db 0 (some "a@x.com")
        = ⟨401, false⟩)
    ∧ (ServerJs.upsertUser [] (some "A@X.com") (some "starter") none none
        = [⟨"a@x.com", "starter", none, none⟩]) :=
  ⟨rfl, rfl, rfl, rfl, rfl⟩

/-- C8 counterexample: a subscription-updated event (billing customer
present) whose subscription id matches no stored row leaves the store
unchanged — no Subscription row keyed by the event's subscription id
is created, so the store does not contain a row with the event's
status and period-end afterwards. -/
theorem c8_counterexample :
    (Part000.processEvent
        ⟨some "whsec", fun _ => none, fun _ => none, fun _ => none, true, 0⟩
        ⟨[], [], 0⟩
        ⟨"evt_u", "customer.subscription.updated",
          ⟨some "sub_1", some "cus_1", some "active", some 100, none, none,
            none, none, none, none⟩⟩
      = ⟨⟨[], [], 0⟩, [], .received⟩)
    ∧ ((Part000.processEvent
        ⟨some "whsec", fun _ => none, fun _ => none, fun _ => none, true, 0⟩
        ⟨[], [], 0⟩
        ⟨"evt_u", "customer.subscription.updated",
          ⟨some "sub_1", some "cus_1", some "active", some 100, none, none,
            none, none, none, none⟩⟩).db.subs.find?
          (fun r => r.stripe_subscription_id == "sub_1") = none) :=
  ⟨rfl, rfl⟩

/-- C8 amended: a subscription-updated event acknowledges with 200 and
updates the existing Subscription row matching the event's
subscription id in place with the event's status and period-end; when
no stored row matches, the store is left unchanged (no row is
created).  Rows keyed by subscription id are inserted-or-updated only
by the checkout path's `upsertSubscription`. -/
theorem c8_updated_updates_in_place (env : Part000.Env) (st : Part000.DbState)
    (ev : Event) (sid c : String)
    (ht : ev.type = "customer.subscription.updated")
    (hid : ev.object.id = some sid)
    (_hc : ev.object.customer = some c) :
    ((Part000.processEvent env st ev).resp = Resp.received)
    ∧ (∀ r ∈ st.subs, r.stripe_subscription_id = sid →
        { r with status := ev.object.status,
                 current_period_end :=
                   tsFromStripeUnixSeconds ev.object.current_period_end }
          ∈ (Part000.processEvent env st ev).db.subs)
    ∧ ((∀ r ∈ st.subs, r.stripe_subscription_id ≠ sid) →
        (Part000.processEvent env st ev).db = st)
    ∧ (∀ (st' : Part000.DbState) (uid : Nat) (plan : String)
        (status : Option String) (cpe : Option Nat),
        (Part000.upsertSubscription st' uid sid plan status cpe).subs.find?
            (fun r => r.stripe_subscription_id == sid)
          = some ⟨uid, sid, plan, status, cpe⟩) := by
  have hdb : (Part000.processEvent env st ev).db
      = Part000.updateSubscriptionRow st ev.object.status
          (tsFromStripeUnixSeconds ev.object.current_period_end) (some sid) := by
    rw [part000_processEvent_db_eq]
    simp [Part000.dbStep, ht, hid]
  refine ⟨part000_processEvent_resp env st ev, ?_, ?_, ?_⟩
  · intro r hr hsid
    rw [hdb]
    unfold Part000.updateSubscriptionRow
    dsimp only
    have hcond : (some r.stripe_subscription_id == some sid) = true := by
      simp [hsid]
    have hmem := List.mem_map_of_mem
      (fun r => if some r.stripe_subscription_id == some sid then
          { r with status := ev.object.status,
                   current_period_end :=
                     tsFromStripeUnixSeconds ev.object.current_period_end }
        else r) hr
    dsimp only at hmem
    rw [if_pos hcond] at hmem
    exact hmem
  · intro hnone
    rw [hdb]
    unfold Part000.updateSubscriptionRow
    have hmap : st.subs.map
        (fun r => if some r.stripe_subscription_id == some sid then
            { r with status := ev.object.status,
                     current_period_end :=
                       tsFromStripeUnixSeconds ev.object.current_period_end }
          else r) = st.subs := by
      have h2 : ∀ r ∈ st.subs,
          (if some r.stripe_subscription_id == some sid then
              { r with status := ev.object.status,
                       current_period_end :=
                         tsFromStripeUnixSeconds ev.object.current_period_end }
            else r) = id r := by
        intro r hr
        have hne : (some r.stripe_subscription_id == some sid) = false := by
          simp [hnone r hr]
        rw [hne]
        rfl
      rw [List.map_congr_left h2, List.map_id]
    rw [hmap]
  · intro st' uid plan status cpe
    unfold Part000.upsertSubscription
    exact find_upsertSubList ⟨uid, sid, plan, status, cpe⟩ st'.subs

/-- C8 witness: updating sub_1 on a store holding a matching row
replaces its status and period-end in place. -/
theorem c8_updated_updates_in_place_witness :
    (⟨1, "sub_1", "starter", some "past_due", some 2000000⟩ : Part000.SubRow)
      ∈ (Part000.processEvent
          ⟨some "whsec", fun _ => none, fun _ => none, fun _ => none, true, 0⟩
          ⟨[⟨1, "b@y.com"⟩], [⟨1, "sub_1", "starter", some "active", some 111⟩], 2⟩
          ⟨"evt_u2", "customer.subscription.updated",
            ⟨some "sub_1", some "cus_1", some "past_due", some 2000, none, none,
              none, none, none, none⟩⟩).db.subs := by
  have h := c8_updated_updates_in_place
    ⟨some "whsec", fun _ => none, fun _ => none, fun _ => none, true, 0⟩
    ⟨[⟨1, "b@y.com"⟩], [⟨1, "sub_1", "starter", some "active", some 111⟩], 2⟩
    ⟨"evt_u2", "customer.subscription.updated",
      ⟨some "sub_1", some "cus_1", some "past_due", some 2000, none, none,
        none, none, none, none⟩⟩
    "sub_1" "cus_1" rfl rfl rfl
  exact h.2.1 ⟨1, "sub_1", "starter", some "active", some 111⟩ (by decide) rfl

/-- C6: for a verified subscription created/updated event with no plan
metadata, a resolvable customer email and a first-item price id, the
stored plan is premium when the id is among the configured premium
price ids of the active mode, else starter when among the starter
ids, else the default free; in particular a price id equal to the
configured premium EUR price id yields plan premium. -/
theorem c6_plan_fallback (env : ServerJs.Env) (st : ServerJs.SState)
    (ev : Event) (pid c e : String)
    (ht : ev.type = "customer.subscription.created"
          ∨ ev.type = "customer.subscription.updated")
    (hmeta : strTruthy ev.object.metadata_plan = false)
    (hpid : ev.object.first_price_id = some pid) (hpne : pid.isEmpty = false)
    (hcust : ev.object.customer = some c) (hcne : c.isEmpty = false)
    (hemail : env.customerEmail c = some e) (hene : e.isEmpty = false) :
    (((ServerJs.processEvent env st ev).1.users.find?
        (fun u => u.email == jsToLower e)).map (fun u => u.plan)
      = some (if (ServerJs.optTruthyList env.premiumEur env.premiumDkk).contains pid
              then "premium"
              else if (ServerJs.optTruthyList env.starterEur env.starterDkk).contains pid
              then "starter" else "free"))
    ∧ (env.premiumEur = some pid →
        ((ServerJs.processEvent env st ev).1.users.find?
            (fun u => u.email == jsToLower e)).map (fun u => u.plan)
          = some "premium") := by
  have hmain := serverJs_subscription_plan_fallback env st ev pid c e ht hmeta
    hpid hpne hcust hcne hemail hene
  constructor
  · rw [hmain]
    by_cases hp : (ServerJs.optTruthyList env.premiumEur env.premiumDkk).contains
        pid = true
    · rw [if_pos hp, if_pos hp]
      decide
    · rw [if_neg hp, if_neg hp]
      by_cases hs : (ServerJs.optTruthyList env.starterEur env.starterDkk).contains
          pid = true
      · rw [if_pos hs, if_pos hs]
        decide
      · rw [if_neg hs, if_neg hs]
        decide
  · intro hprem
    rw [hmain,
      if_pos (optTruthyList_contains_left env.premiumEur env.premiumDkk pid
        hprem hpne)]
    decide

/-- C6 witness: a subscription-updated event with no plan metadata and
price id equal to the configured premium EUR id stores plan premium. -/
theorem c6_plan_fallback_witness :
    ((ServerJs.processEvent
        ⟨some "pS", none, some "pP", none, true, true, fun _ => some "a@x.com"⟩
        ⟨[], [], []⟩
        ⟨"evt_6", "customer.subscription.updated",
          ⟨some "sub_6", some "cus_6", some "active", some 100, none, none,
            none, none, none, some "pP"⟩⟩).1.users.find?
        (fun u => u.email == jsToLower "a@x.com")).map (fun u => u.plan)
      = some "premium" := by
  have h := c6_plan_fallback
    ⟨some "pS", none, some "pP", none, true, true, fun _ => some "a@x.com"⟩
    ⟨[], [], []⟩
    ⟨"evt_6", "customer.subscription.updated",
      ⟨some "sub_6", some "cus_6", some "active", some 100, none, none,
        none, none, none, some "pP"⟩⟩
    "pP" "cus_6" "a@x.com" (Or.inr rfl) (by decide) rfl (by decide) rfl
    (by decide) rfl (by decide)
  exact h.2 rfl

/-- C10: plan resolution precedence for subscription created/updated
events: a truthy metadata plan value is stored normalized and the
price-id mapping is irrelevant; only with metadata absent is the
price id consulted, and an id configured in both lists resolves to
premium (the premium check runs last); any value outside starter and
premium normalizes to free. -/
theorem c10_plan_precedence (env : ServerJs.Env) (st : ServerJs.SState)
    (ev : Event) (c e : String)
    (ht : ev.type = "customer.subscription.created"
          ∨ ev.type = "customer.subscription.updated")
    (hcust : ev.object.customer = some c) (hcne : c.isEmpty = false)
    (hemail : env.customerEmail c = some e) (hene : e.isEmpty = false) :
    (∀ m, ev.object.metadata_plan = some m → m.isEmpty = false →
      ((ServerJs.processEvent env st ev).1.users.find?
          (fun u => u.email == jsToLower e)).map (fun u => u.plan)
        = some (ServerJs.normalizePlan (some m)))
    ∧ (∀ pid, strTruthy ev.object.metadata_plan = false →
        ev.object.first_price_id = some pid → pid.isEmpty = false →
        (ServerJs.optTruthyList env.starterEur env.starterDkk).contains pid = true →
        (ServerJs.optTruthyList env.premiumEur env.premiumDkk).contains pid = true →
        ((ServerJs.processEvent env st ev).1.users.find?
            (fun u => u.email == jsToLower e)).map (fun u => u.plan)
          = some "premium")
    ∧ (∀ s : String, jsToLower s ≠ "starter" → jsToLower s ≠ "premium" →
        ServerJs.normalizePlan (some s) = "free") := by
  refine ⟨?_, ?_, ?_⟩
  · intro m hm hmne
    rw [serverJs_processEvent_users_eq]
    unfold ServerJs.usersStep
    have hne : (ev.type == "checkout.session.completed") = false := by
      rcases ht with h | h <;> simp [h]
    have hyes : (ev.type == "customer.subscription.created"
        || ev.type == "customer.subscription.updated") = true := by
      rcases ht with h | h <;> simp [h]
    rw [if_neg (show ¬ ((ev.type == "checkout.session.completed") = true) by
          simp [hne]),
        if_pos hyes]
    dsimp only
    rw [hcust, hm]
    have hct : strTruthy (some c) = true := by simp [strTruthy, hcne]
    have het : strTruthy (some e) = true := by simp [strTruthy, hene]
    have hmt : strTruthy (some m) = true := by simp [strTruthy, hmne]
    rw [jsOrNull_of_truthy _ hmt]
    simp [hct, het, hmt, hemail, hene, hcne, hmne, jsOrNull_of_truthy _ het,
      strTruthy, ServerJs.upsertUser, find_upsertList_plan, normalizePlan_idem]
  · intro pid hmeta hpid hpne hs hp
    rw [serverJs_subscription_plan_fallback env st ev pid c e ht hmeta
        hpid hpne hcust hcne hemail hene,
      if_pos hp]
    decide
  · intro s h1 h2
    unfold ServerJs.normalizePlan
    dsimp only
    rw [if_neg]
    simp only [Option.getD_some, Bool.or_eq_true, not_or, Bool.not_eq_true]
    constructor
    · exact beq_false_of_ne h1
    · exact beq_false_of_ne h2

/-- C10 witness: metadata plan "Premium" wins over a price id that is
configured as a starter id, and is stored lowercased. -/
theorem c10_plan_precedence_witness :
    ((ServerJs.processEvent
        ⟨some "pS", none, some "pP", none, true, true, fun _ => some "a@x.com"⟩
        ⟨[], [], []⟩
        ⟨"evt_10", "customer.subscription.created",
          ⟨some "sub_10", some "cus_1", some "active", some 100, some "Premium",
            none, none, none, none, some "pS"⟩⟩).1.users.find?
        (fun u => u.email == jsToLower "a@x.com")).map (fun u => u.plan)
      = some "premium" := by
  have h := c10_plan_precedence
    ⟨some "pS", none, some "pP", none, true, true, fun _ => some "a@x.com"⟩
    ⟨[], [], []⟩
    ⟨"evt_10", "customer.subscription.created",
      ⟨some "sub_10", some "cus_1", some "active", some 100, some "Premium",
        none, none, none, none, some "pS"⟩⟩
    "cus_1" "a@x.com" (Or.inl rfl) rfl (by decide) rfl (by decide)
  have h2 := h.1 "Premium" rfl (by decide)
  rw [h2]
  decide

/-- C7: events whose required identifiers cannot be resolved are
no-op successes: part_000's checkout branch leaves the store
untouched, sends nothing and still responds 200 when the email or the
subscription id is missing; server.js's `upsertUser` is a no-op on a
falsy email, and its checkout branch with an unresolvable email
changes no user row, sends no email, and still responds 200. -/
theorem c7_unresolvable_noop :
    (∀ (env : Part000.Env) (st : Part000.DbState) (ev : Event),
      ev.type = "checkout.session.completed" →
      (strTruthy (jsOr (jsOr ev.object.customer_details_email
          ev.object.customer_email) ev.object.metadata_email) = false
        ∨ strTruthy ev.object.subscription = false) →
      Part000.processEvent env st ev = ⟨st, [], .received⟩)
    ∧ (∀ (users : List ServerJs.UserRow) (email plan cid sid : Option String),
        strTruthy email = false →
        ServerJs.upsertUser users email plan cid sid = users)
    ∧ (∀ (env : ServerJs.Env) (st : ServerJs.SState) (ev : Event),
        ev.type = "checkout.session.completed" →
        strTruthy (jsOr ev.object.customer_details_email
          ev.object.customer_email) = false →
        (ServerJs.processEvent env st ev).1.users = st.users
        ∧ (ServerJs.processEvent env st ev).1.sentEmails = st.sentEmails
        ∧ (ServerJs.processEvent env st ev).2 = Resp.received) := by
  refine ⟨?_, ?_, ?_⟩
  · intro env st ev ht hmiss
    unfold Part000.processEvent
    dsimp only
    rw [if_pos (show (ev.type == "checkout.session.completed") = true by
          simp [ht])]
    rw [if_pos (show (!strTruthy (jsOr (jsOr ev.object.customer_details_email
          ev.object.customer_email) ev.object.metadata_email)
        || !strTruthy ev.object.subscription) = true by
          rcases hmiss with h | h <;> simp [h])]
  · intro users email plan cid sid h
    unfold ServerJs.upsertUser
    simp [h]
  · intro env st ev ht hmiss
    have het : strTruthy (jsOrNull (jsOr ev.object.customer_details_email
        ev.object.customer_email)) = false := by
      rw [strTruthy_jsOrNull]
      exact hmiss
    unfold ServerJs.processEvent
    dsimp only
    rw [if_pos (show (ev.type == "checkout.session.completed") = true by
          simp [ht])]
    refine ⟨?_, ?_, rfl⟩
    · dsimp only
      unfold ServerJs.upsertUser
      rw [het]
      rfl
    · dsimp only
      rw [het]
      simp

/-- C7 witness: a checkout event carrying a subscription id but no
resolvable email is a no-op 200 on part_000's store. -/
theorem c7_unresolvable_noop_witness :
    Part000.processEvent
        ⟨some "whsec", fun _ => none, fun _ => none, fun _ => none, true, 0⟩
        ⟨[⟨1, "a@x.com"⟩], [], 2⟩
        ⟨"evt_7", "checkout.session.completed",
          ⟨none, none, none, none, some "starter", none, none, none,
            some "sub_7", none⟩⟩
      = ⟨⟨[⟨1, "a@x.com"⟩], [], 2⟩, [], .received⟩ := by
  have h := c7_unresolvable_noop
  exact h.1 _ _ _ rfl (Or.inl (by decide))

/-- C5 counterexample: in part_001 a failing welcome-email send after
checkout completion is not individually guarded: the outer catch
turns it into HTTP 500, even though signature verification succeeded
and the database mutation for the event had already succeeded. -/
theorem c5_counterexample :
    Part001.webhook
        ⟨some "whsec", fun _ => some "active", fun _ => some 2000000000,
          fun _ => none, false, 0⟩
        ⟨[], [], 0⟩
        ⟨"raw5", ⟨"evt_5", "checkout.session.completed",
          ⟨none, none, none, none, some "starter", none, some "a@x.com",
            none, some "sub_5", none⟩⟩⟩
        (some ⟨"whsec", "raw5"⟩)
      = ⟨⟨[⟨0, "a@x.com"⟩],
          [⟨0, "sub_5", "starter", some "active", some 2000000000000⟩], 1⟩,
         [], .serverError⟩ := by rfl

/-- C5 amended: in server.js's /stripe-webhook (all branches) and in
part_000's /webhook, an email-send failure never changes the response
(still 200) and never affects the database effect of the event; in
part_001's /webhook, however, a send failure on the checkout welcome
email escalates to 500 through the outer catch — the event's database
mutation still succeeds (the subscription row is upserted before the
send), but the acknowledgment fails. -/
theorem c5_email_failure_isolation :
    (∀ (env : ServerJs.Env) (st : ServerJs.SState) (ev : Event) (b : Bool),
      (ServerJs.processEvent { env with emailOk := b } st ev).2 = Resp.received
      ∧ (ServerJs.processEvent { env with emailOk := b } st ev).1.users
          = (ServerJs.processEvent env st ev).1.users
      ∧ (ServerJs.processEvent { env with emailOk := b } st ev).1.events
          = (ServerJs.processEvent env st ev).1.events)
    ∧ (∀ (env : Part000.Env) (st : Part000.DbState) (ev : Event) (b : Bool),
        (Part000.processEvent { env with emailOk := b } st ev).resp = Resp.received
        ∧ (Part000.processEvent { env with emailOk := b } st ev).db
            = (Part000.processEvent env st ev).db)
    ∧ (∀ (env : Part001.Env) (st : Part000.DbState) (ev : Event) (e sid : String),
        ev.type = "checkout.session.completed" →
        jsOr (jsOr ev.object.customer_details_email ev.object.customer_email)
            ev.object.metadata_email = some e → e.isEmpty = false →
        ev.object.subscription = some sid → sid.isEmpty = false →
        env.emailOk = false →
        (Part001.processEvent env st ev).resp = Resp.serverError
        ∧ (Part001.processEvent env st ev).db.subs.find?
              (fun r => r.stripe_subscription_id == sid)
            = some ⟨(Part000.upsertUserByEmail st e).1.id, sid,
                jsOrD ev.object.metadata_plan "starter",
                some (jsOrD (env.retrieveSubStatus sid) "active"),
                tsFromStripeUnixSeconds (env.retrieveSubPeriodEnd sid)⟩) := by
  refine ⟨?_, ?_, ?_⟩
  · intro env st ev b
    refine ⟨serverJs_processEvent_resp _ st ev, ?_, ?_⟩
    · rw [serverJs_processEvent_users_eq, serverJs_processEvent_users_eq,
        usersStep_emailOk]
    · rw [serverJs_processEvent_events, serverJs_processEvent_events]
  · intro env st ev b
    refine ⟨part000_processEvent_resp _ st ev, ?_⟩
    rw [part000_processEvent_db_eq, part000_processEvent_db_eq,
      part000_dbStep_emailOk]
  · intro env st ev e sid ht hem hene hsid hsne hko
    unfold Part001.processEvent
    dsimp only
    rw [if_pos (show (ev.type == "checkout.session.completed") = true by
          simp [ht])]
    rw [hem, hsid]
    rw [if_pos (show (strTruthy (some e) && strTruthy (some sid)) = true by
          simp [strTruthy, hene, hsne])]
    rw [hko]
    rcases hA : Part000.upsertUserByEmail st ((some e).getD "") with ⟨u, s1⟩
    have hA' : Part000.upsertUserByEmail st e = (u, s1) := hA
    dsimp only
    rw [hA']
    rw [if_neg (show ¬ (false = true) by simp)]
    dsimp only [Option.getD]
    refine ⟨rfl, ?_⟩
    exact find_upsertSubList
      ⟨u.id, sid, jsOrD ev.object.metadata_plan "starter",
        some (jsOrD (env.retrieveSubStatus sid) "active"),
        tsFromStripeUnixSeconds (env.retrieveSubPeriodEnd sid)⟩ s1.subs

/-- C5 witness: a concrete part_001 checkout delivery with a failing
email provider returns 500. -/
theorem c5_email_failure_isolation_witness :
    (Part001.processEvent
        ⟨some "whsec", fun _ => some "active", fun _ => some 2000000000,
          fun _ => none, false, 0⟩
        ⟨[], [], 0⟩
        ⟨"evt_5b", "checkout.session.completed",
          ⟨none, none, none, none, some "starter", none, some "a@x.com",
            none, some "sub_5", none⟩⟩).resp = Resp.serverError := by
  have h := c5_email_failure_isolation
  exact (h.2.2
    ⟨some "whsec", fun _ => some "active", fun _ => some 2000000000,
      fun _ => none, false, 0⟩
    ⟨[], [], 0⟩
    ⟨"evt_5b", "checkout.session.completed",
      ⟨none, none, none, none, some "starter", none, some "a@x.com",
        none, some "sub_5", none⟩⟩
    "a@x.com" "sub_5" rfl rfl (by decide) rfl (by decide) rfl).1

/-- C4 counterexample: when the webhook secret env variable is absent,
src/server.js's endpoint does not respond 400: `getStripeWebhookSecret`
(a `requireEnv`) throws before the handler's try/catch and the
exception escapes uncaught (no processing takes place, but no 400
response is produced either). -/
theorem c4_counterexample :
    (ServerJs.stripeWebhook none
        ⟨none, none, none, none, true, true, fun _ => none⟩ ⟨[], [], []⟩
        ⟨"raw4", ⟨"evt_4", "checkout.session.completed",
          ⟨none, none, none, none, none, none, none, none, none, none⟩⟩⟩
        (some ⟨"whsec", "raw4"⟩)
      = .error "Missing STRIPE_WEBHOOK_SECRET_TEST in env")
    ∧ ((ServerJs.stripeWebhook none
        ⟨none, none, none, none, true, true, fun _ => none⟩ ⟨[], [], []⟩
        ⟨"raw4", ⟨"evt_4", "checkout.session.completed",
          ⟨none, none, none, none, none, none, none, none, none, none⟩⟩⟩
        (some ⟨"whsec", "raw4"⟩)).isOk = false) :=
  ⟨rfl, rfl⟩

/-- C4 amended: with a configured secret, every validly signed payload
is accepted by the verifier, and every invalid signature (a signature
over different bytes — any mutated byte —, a signature made with a
different secret, or a missing signature header) yields 400 with the
state returned untouched (no store mutation, no email, no idempotency
record); with the secret absent, part_000 and part_001 fail closed
with 400, while server.js fails closed by raising before its
try/catch — an uncaught error and no processing, but not a 400
response. -/
theorem c4_signature_verification (s : String) (hs : s.isEmpty = false) :
    (∀ body : RawBody,
      constructEvent (some s) body (some ⟨s, body.bytes⟩) = .ok body.event)
    ∧ (∀ (env : ServerJs.Env) (st : ServerJs.SState) (body : RawBody)
        (g : StripeSig),
        g.secret ≠ s ∨ g.signedBytes ≠ body.bytes →
        ServerJs.stripeWebhook (some s) env st body (some g)
          = .ok (st, .badRequest))
    ∧ (∀ (env : ServerJs.Env) (st : ServerJs.SState) (body : RawBody),
        ServerJs.stripeWebhook (some s) env st body none
          = .ok (st, .badRequest))
    ∧ (∀ (env : Part000.Env) (st : Part000.DbState) (body : RawBody)
        (sig : Option StripeSig),
        env.whSecret = none →
        Part000.webhook env st body sig = ⟨st, [], .badRequest⟩)
    ∧ (∀ (env : Part001.Env) (st : Part000.DbState) (body : RawBody)
        (sig : Option StripeSig),
        env.endpointSecret = none →
        Part001.webhook env st body sig = ⟨st, [], .badRequest⟩)
    ∧ (∀ (env : ServerJs.Env) (st : ServerJs.SState) (body : RawBody)
        (sig : Option StripeSig),
        ServerJs.stripeWebhook none env st body sig
          = .error "Missing STRIPE_WEBHOOK_SECRET_TEST in env") := by
  refine ⟨?_, ?_, ?_, ?_, ?_, ?_⟩
  · intro body
    simp [constructEvent]
  · intro env st body g hbad
    have hcond : (g.secret == s && g.signedBytes == body.bytes) = false := by
      rcases hbad with h | h
      · simp [beq_false_of_ne h]
      · simp [beq_false_of_ne h]
    simp [ServerJs.stripeWebhook, ServerJs.requireEnv, hs, constructEvent, hcond]
  · intro env st body
    simp [ServerJs.stripeWebhook, ServerJs.requireEnv, hs, constructEvent]
  · intro env st body sig h
    simp [Part000.webhook, constructEvent, h]
  · intro env st body sig h
    simp [Part001.webhook, h]
  · intro env st body sig
    simp [ServerJs.stripeWebhook, ServerJs.requireEnv]

/-- C4 witness: a signature over one mutated byte of the raw body is
rejected with 400 and the store is untouched. -/
theorem c4_signature_verification_witness :
    ServerJs.stripeWebhook (some "whsec")
        ⟨none, none, none, none, true, true, fun _ => none⟩
        ⟨[⟨"a@x.com", "free", none, none⟩], [], []⟩
        ⟨"rawX", ⟨"evt_4b", "checkout.session.completed",
          ⟨none, none, none, none, none, none, none, none, none, none⟩⟩⟩
        (some ⟨"whsec", "rawY"⟩)
      = .ok (⟨[⟨"a@x.com", "free", none, none⟩], [], []⟩, .badRequest) := by
  have h := c4_signature_verification "whsec" (by decide)
  exact h.2.1
    ⟨none, none, none, none, true, true, fun _ => none⟩
    ⟨[⟨"a@x.com", "free", none, none⟩], [], []⟩
    ⟨"rawX", ⟨"evt_4b", "checkout.session.completed",
      ⟨none, none, none, none, none, none, none, none, none, none⟩⟩⟩
    ⟨"whsec", "rawY"⟩ (Or.inr (by decide))

/-- C1 counterexample: the same signed checkout delivery (provider
event id evt_1) processed twice by server.js's /stripe-webhook: the
duplicate leaves the users table and the idempotency ledger unchanged,
but a second welcome email goes out — the emails sent after the
duplicate delivery do not equal those after the first processing. -/
theorem c1_counterexample :
    (ServerJs.stripeWebhook (some "whsec")
        ⟨some "pS", none, some "pP", none, true, true, fun _ => some "a@x.com"⟩
        ⟨[], [], []⟩
        ⟨"raw1", ⟨"evt_1", "checkout.session.completed",
          ⟨none, none, none, none, some "starter", none, some "a@x.com",
            none, some "sub_1", none⟩⟩⟩
        (some ⟨"whsec", "raw1"⟩)
      = .ok (⟨[⟨"a@x.com", "starter", none, some "sub_1"⟩],
          [("evt_1", "checkout.session.completed")],
          [("a@x.com", "welcome")]⟩, .received))
    ∧ (ServerJs.stripeWebhook (some "whsec")
        ⟨some "pS", none, some "pP", none, true, true, fun _ => some "a@x.com"⟩
        ⟨[⟨"a@x.com", "starter", none, some "sub_1"⟩],
          [("evt_1", "checkout.session.completed")],
          [("a@x.com", "welcome")]⟩
        ⟨"raw1", ⟨"evt_1", "checkout.session.completed",
          ⟨none, none, none, none, some "starter", none, some "a@x.com",
            none, some "sub_1", none⟩⟩⟩
        (some ⟨"whsec", "raw1"⟩)
      = .ok (⟨[⟨"a@x.com", "starter", none, some "sub_1"⟩],
          [("evt_1", "checkout.session.completed")],
          [("a@x.com", "welcome"), ("a@x.com", "welcome")]⟩, .received))
    ∧ ([("a@x.com", "welcome"), ("a@x.com", "welcome")]
        ≠ [("a@x.com", "welcome")]) :=
  ⟨rfl, rfl, by decide⟩

/-- C1 amended: a duplicate delivery of the same signed event creates
no second row anywhere: in server.js the users table and the
idempotency ledger after processing the duplicate equal those after
the first processing (the ledger records the event id but does not
gate reprocessing), and in part_000 reprocessing the same event is
idempotent on the database state (users and subscriptions tables and
the id counter); the notification email, however, is sent again on
the duplicate delivery. -/
theorem c1_duplicate_store_idempotent (secretEnv : Option String)
    (env : ServerJs.Env) (st st1 st2 : ServerJs.SState) (r1 r2 : Resp)
    (body : RawBody) (sig : Option StripeSig)
    (h1 : ServerJs.stripeWebhook secretEnv env st body sig = .ok (st1, r1))
    (h2 : ServerJs.stripeWebhook secretEnv env st1 body sig = .ok (st2, r2)) :
    (st2.users = st1.users ∧ st2.events = st1.events)
    ∧ (∀ (penv : Part000.Env) (pst : Part000.DbState) (ev : Event),
        (Part000.processEvent penv (Part000.processEvent penv pst ev).db ev).db
          = (Part000.processEvent penv pst ev).db) := by
  constructor
  · cases hsec : ServerJs.requireEnv "STRIPE_WEBHOOK_SECRET_TEST" secretEnv with
    | error msg =>
      unfold ServerJs.stripeWebhook at h1
      rw [hsec] at h1
      exact absurd h1 (by simp)
    | ok s =>
      unfold ServerJs.stripeWebhook at h1 h2
      rw [hsec] at h1 h2
      dsimp only at h1 h2
      cases hce : constructEvent (some s) body sig with
      | error m =>
        rw [hce] at h1 h2
        dsimp only at h1 h2
        injection h1 with h1'
        injection h2 with h2'
        have e2 : st2 = st1 := (congrArg Prod.fst h2').symm
        rw [e2]
        exact ⟨rfl, rfl⟩
      | ok ev =>
        rw [hce] at h1 h2
        dsimp only at h1 h2
        injection h1 with h1'
        injection h2 with h2'
        have e1 : (ServerJs.processEvent env
            { st with events :=
                ServerJs.insertEventIfAbsent st.events ev.id ev.type } ev).1
              = st1 := by
          rw [h1']
        have e2 : (ServerJs.processEvent env
            { st1 with events :=
                ServerJs.insertEventIfAbsent st1.events ev.id ev.type } ev).1
              = st2 := by
          rw [h2']
        constructor
        · rw [← e2, serverJs_processEvent_users_eq]
          dsimp only
          rw [← e1, serverJs_processEvent_users_eq]
          exact usersStep_idem env ev _
        · rw [← e2, serverJs_processEvent_events]
          dsimp only
          rw [← e1, serverJs_processEvent_events]
          dsimp only
          exact insertEventIfAbsent_idem st.events ev.id ev.type ev.type
  · intro penv pst ev
    simp only [part000_processEvent_db_eq]
    exact part000_dbStep_idem penv ev pst

/-- C1 witness: the amended idempotency applied to the concrete
double delivery of evt_1 — the users table after the duplicate equals
the users table after the first processing. -/
theorem c1_duplicate_store_idempotent_witness :
    ((⟨[⟨"a@x.com", "starter", none, some "sub_1"⟩],
        [("evt_1", "checkout.session.completed")],
        [("a@x.com", "welcome"), ("a@x.com", "welcome")]⟩ : ServerJs.SState).users
      = (⟨[⟨"a@x.com", "starter", none, some "sub_1"⟩],
          [("evt_1", "checkout.session.completed")],
          [("a@x.com", "welcome")]⟩ : ServerJs.SState).users) := by
  have h := c1_duplicate_store_idempotent (some "whsec")
    ⟨some "pS", none, some "pP", none, true, true, fun _ => some "a@x.com"⟩
    ⟨[], [], []⟩
    ⟨[⟨"a@x.com", "starter", none, some "sub_1"⟩],
      [("evt_1", "checkout.session.completed")],
      [("a@x.com", "welcome")]⟩
    ⟨[⟨"a@x.com", "starter", none, some "sub_1"⟩],
      [("evt_1", "checkout.session.completed")],
      [("a@x.com", "welcome"), ("a@x.com", "welcome")]⟩
    .received .received
    ⟨"raw1", ⟨"evt_1", "checkout.session.completed",
      ⟨none, none, none, none, some "starter", none, some "a@x.com",
        none, some "sub_1", none⟩⟩⟩
    (some ⟨"whsec", "raw1"⟩) rfl rfl
  exact h.1.1
